import Mathlib

/-!
Shallow embedding of `src/kv/value/internal.rs` from the `log` crate:
the `Inner` container, the internal `Visitor` contract, the coercion
engine (`as_u64`, `as_i64`, `as_f64`, `as_bool`, `as_char`, `as_str`,
`to_str`) and the formatting consumer (`FmtVisitor`).

Modelling conventions:
  - `i64` is `Int`, `u64` is `Nat` (no arithmetic is ever performed on
    them by this module, only storage and retrieval, so exact machine
    width is irrelevant to every claim);
  - `f64` is an arbitrary type parameter `F` (the module never inspects
    float values, only stores, retrieves and prints them);
  - a `&dyn fmt::Debug` (resp. `&dyn fmt::Display`) trait object is
    modelled by its rendered output: `some text`, or `Option.none` when
    its `fmt` method fails;
  - the `Error` type is an opaque message, modelled as `String`;
  - visitor methods mutate the visitor's state and return
    `Result<(), Error>`; this is modelled by state passing, a method of
    state `sigma` being `payload → sigma → sigma × Except String Unit`,
    so that state written before a failure survives, as in Rust;
  - the `cfg(feature = "std")` flag is an explicit `Bool` parameter
    `std` of the coercion engine (the only place the source branches on
    it); `to_str` exists only in the `std` configuration, so its model
    fixes `std := true`;
  - an `sval` structured value (external crate) is modelled by the
    stream of primitive tokens it emits.
-/

namespace LogKV

/-- Rust `Primitive<'v>`: the closed set of copyable scalar kinds.
`F` is the carrier of `f64` values. -/
inductive Primitive (F : Type) where
  | signed : Int → Primitive F
  | unsigned : Nat → Primitive F
  | float : F → Primitive F
  | bool : Bool → Primitive F
  | char : Char → Primitive F
  | str : String → Primitive F
  | none : Primitive F
deriving DecidableEq

/-- A primitive token emitted by an external `sval` structured value when
streamed: `sval_support::coerce`'s `Coerce` stream captures exactly these
cases (`u64`, `i64`, `f64`, `char`, `bool`, `str`). -/
inductive SvalToken (F : Type) where
  | u64 : Nat → SvalToken F
  | i64 : Int → SvalToken F
  | f64 : F → SvalToken F
  | char : Char → SvalToken F
  | bool : Bool → SvalToken F
  | str : String → SvalToken F
deriving DecidableEq

/-- Rust `Inner<'v>`: the container for a structured value.

`Inner::Fill(&dyn Fill)` holds user code whose contract (the `Fill` trait
and `Slot`, declared in the enclosing module, outside this file's source)
is: populate a single-slot acceptor with exactly one value, producing
exactly one downstream dispatch, or fail. Modelled from the spec: the
`fill` constructor holds the single downstream value the fill dispatches;
the `fillFail` constructor is a fill that fails (returns `Err`) without
dispatching anything.

`Inner::Sval(&dyn sval_support::Value)` holds an external structured
value, modelled by the primitive tokens it streams. -/
inductive Inner (F : Type) where
  | primitive : Primitive F → Inner F
  | fill : Inner F → Inner F
  | fillFail : String → Inner F
  | debug : Option String → Inner F
  | display : Option String → Inner F
  | sval : List (SvalToken F) → Inner F
deriving DecidableEq

/-- Rust `trait Visitor`: one method per primitive kind, the `debug`
fallback and the `sval` extension method. A method takes its payload and
the visitor's state, and returns the updated state together with the
`Result<(), Error>` value. The trait's `display` method is defaulted and
no visitor in the source overrides it, so it is modelled as a plain
function (`Visitor.display` below) rather than a field. -/
structure Visitor (σ F : Type) where
  debug : Option String → σ → σ × Except String Unit
  u64 : Nat → σ → σ × Except String Unit
  i64 : Int → σ → σ × Except String Unit
  f64 : F → σ → σ × Except String Unit
  bool : Bool → σ → σ × Except String Unit
  char : Char → σ → σ × Except String Unit
  str : String → σ → σ × Except String Unit
  none : σ → σ × Except String Unit
  sval : List (SvalToken F) → σ → σ × Except String Unit

/-- The trait's defaulted `display` method:
`self.debug(&format_args!("{}", v))` — it forwards to `debug` a value
whose debug text is the displayed text of `v`; under the rendered-output
model of trait objects that forwarded value is `v` itself. -/
def Visitor.display (v : Visitor σ F) (d : Option String) (s : σ) :
    σ × Except String Unit :=
  v.debug d s

/-- Rust `Inner::visit`: dispatch the container into the visitor,
invoking the single matching method. The `fill` case mirrors
`value.fill(&mut Slot::new(visitor))` under the spec's fill contract:
one downstream dispatch of the filled value, or the fill's own error. -/
def Inner.visit (v : Visitor σ F) : Inner F → σ → σ × Except String Unit
  | .primitive (.signed n), s => v.i64 n s
  | .primitive (.unsigned n), s => v.u64 n s
  | .primitive (.float x), s => v.f64 x s
  | .primitive (.bool b), s => v.bool b s
  | .primitive (.char c), s => v.char c s
  | .primitive (.str t), s => v.str t s
  | .primitive .none, s => v.none s
  | .fill inner, s => Inner.visit v inner s
  | .fillFail e, s => (s, .error e)
  | .debug d, s => v.debug d s
  | .display d, s => Visitor.display v d s
  | .sval toks, s => v.sval toks s

/-- Rust `Coerced<'v>`: either a primitive or (in the `std`
configuration only; the coercion engine below writes the `string` case
only when `std = true`) an owned string. -/
inductive Coerced (F : Type) where
  | primitive : Primitive F → Coerced F
  | string : String → Coerced F
deriving DecidableEq

/-- One step of `sval_support::coerce`'s stream: each primitive token
overwrites the state; the `str` case is present only with `std`
(without it, modelled from the spec: string-producing coercions are
no-ops that leave the state at its previous value). -/
def svalCoerceStep (std : Bool) : Coerced F → SvalToken F → Coerced F
  | _, .u64 n => .primitive (.unsigned n)
  | _, .i64 n => .primitive (.signed n)
  | _, .f64 x => .primitive (.float x)
  | _, .char c => .primitive (.char c)
  | _, .bool b => .primitive (.bool b)
  | s, .str t => if std then .string t else s

/-- Rust `sval_support::coerce`: stream the structured value into a
transient state initialised to `Primitive::None`. -/
def svalCoerce (std : Bool) (toks : List (SvalToken F)) : Coerced F :=
  toks.foldl (svalCoerceStep std) (.primitive .none)

/-- The coercion engine's transient `Coerce` visitor (`Inner::coerce`):
each primitive method overwrites the state with the matching primitive;
`debug` discards its value and leaves the state unchanged; `str` writes
an owned string with `std` and is a no-op without; `sval` replaces the
state with the result of `sval_support::coerce`. Every method returns
`Ok(())`. -/
def coerceVisitor (std : Bool) : Visitor (Coerced F) F where
  debug := fun _ s => (s, .ok ())
  u64 := fun n _ => (.primitive (.unsigned n), .ok ())
  i64 := fun n _ => (.primitive (.signed n), .ok ())
  f64 := fun x _ => (.primitive (.float x), .ok ())
  bool := fun b _ => (.primitive (.bool b), .ok ())
  char := fun c _ => (.primitive (.char c), .ok ())
  str := fun t s => (if std then .string t else s, .ok ())
  none := fun _ => (.primitive .none, .ok ())
  sval := fun toks _ => (svalCoerce std toks, .ok ())

/-- Rust `Inner::coerce` together with its discarded dispatch result:
`let mut coerce = Coerce::new(); let _ = self.visit(&mut coerce);
coerce.0`. The first component is the state reached, the second the
ignored `Result`. -/
def Inner.coerceRun (std : Bool) (c : Inner F) :
    Coerced F × Except String Unit :=
  Inner.visit (coerceVisitor std) c (.primitive .none)

/-- Rust `Inner::coerce`: the reached state, the dispatch result being
discarded. -/
def Inner.coerce (std : Bool) (c : Inner F) : Coerced F :=
  (c.coerceRun std).1

/-- Rust `Coerced::into_primitive`: a primitive passes through, anything
else (the owned-string case) becomes `Primitive::None`. -/
def Coerced.into_primitive : Coerced F → Primitive F
  | .primitive v => v
  | _ => .none

/-- Rust `Primitive::into_str`. -/
def Primitive.into_str : Primitive F → Option String
  | .str t => some t
  | _ => Option.none

/-- Rust `Primitive::into_u64`. -/
def Primitive.into_u64 : Primitive F → Option Nat
  | .unsigned n => some n
  | _ => Option.none

/-- Rust `Primitive::into_i64`. -/
def Primitive.into_i64 : Primitive F → Option Int
  | .signed n => some n
  | _ => Option.none

/-- Rust `Primitive::into_f64`. -/
def Primitive.into_f64 : Primitive F → Option F
  | .float x => some x
  | _ => Option.none

/-- Rust `Primitive::into_char`. -/
def Primitive.into_char : Primitive F → Option Char
  | .char c => some c
  | _ => Option.none

/-- Rust `Primitive::into_bool`. -/
def Primitive.into_bool : Primitive F → Option Bool
  | .bool b => some b
  | _ => Option.none

/-- Rust `Inner::as_str`: the plain-string-primitive shortcut, and the
general coercion path otherwise. -/
def Inner.as_str (std : Bool) (c : Inner F) : Option String :=
  match c with
  | .primitive (.str t) => some t
  | _ => ((c.coerce std).into_primitive).into_str

/-- Rust `Inner::as_u64`. -/
def Inner.as_u64 (std : Bool) (c : Inner F) : Option Nat :=
  ((c.coerce std).into_primitive).into_u64

/-- Rust `Inner::as_i64`. -/
def Inner.as_i64 (std : Bool) (c : Inner F) : Option Int :=
  ((c.coerce std).into_primitive).into_i64

/-- Rust `Inner::as_f64`. -/
def Inner.as_f64 (std : Bool) (c : Inner F) : Option F :=
  ((c.coerce std).into_primitive).into_f64

/-- Rust `Inner::as_char`. -/
def Inner.as_char (std : Bool) (c : Inner F) : Option Char :=
  ((c.coerce std).into_primitive).into_char

/-- Rust `Inner::as_bool`. -/
def Inner.as_bool (std : Bool) (c : Inner F) : Option Bool :=
  ((c.coerce std).into_primitive).into_bool

/-- Rust `Coerced::into_string` (`std` configuration only). -/
def Coerced.into_string : Coerced F → Option String
  | .primitive (.str t) => some t
  | .string t => some t
  | _ => Option.none

/-- Rust `Inner::to_str` (defined only in the `std` configuration, hence
the coercion runs with `std := true`). -/
def Inner.to_str (c : Inner F) : Option String :=
  (c.coerce true).into_string

/-- The double-quote character, written by code point to keep literals
plain. -/
def dquote : Char := Char.ofNat 34

/-- The single-quote character. -/
def squote : Char := Char.ofNat 39

/-- The backslash character. -/
def backslash : Char := Char.ofNat 92

/-- The escaping Rust's `{:?}` applies to one character occurring inside
a string literal (`char::escape_debug` restricted to the common cases:
quote, backslash and the usual control characters). -/
def escapeInStr (c : Char) : String :=
  if c = dquote then String.mk [backslash, dquote]
  else if c = backslash then String.mk [backslash, backslash]
  else if c = Char.ofNat 10 then String.mk [backslash, Char.ofNat 110]
  else if c = Char.ofNat 9 then String.mk [backslash, Char.ofNat 116]
  else if c = Char.ofNat 13 then String.mk [backslash, Char.ofNat 114]
  else String.singleton c

/-- Rust `{:?}` of a `&str`: the text quoted and escaped, never raw. -/
def rustDebugStr (s : String) : String :=
  String.singleton dquote ++ String.join (s.toList.map escapeInStr) ++
    String.singleton dquote

/-- Rust `{:?}` of a `char`: single-quoted. -/
def rustDebugChar (c : Char) : String :=
  String.singleton squote ++
    (if c = squote then String.mk [backslash, squote] else escapeInStr c) ++
    String.singleton squote

/-- Rust `{:?}` of an `i64`: decimal, with a leading minus sign when
negative. -/
def rustDebugI64 (n : Int) : String := toString n

/-- Rust `{:?}` of a `u64`: decimal. -/
def rustDebugU64 (n : Nat) : String := toString n

/-- Rust `{:?}` of a `bool`. -/
def rustDebugBool (b : Bool) : String := cond b "true" "false"

/-- The canonical debug text of each primitive payload, `{:?}` applied
to the payload itself; the absence primitive's text is the literal token
`None`. `reprF` is the (external, deterministic) `{:?}` rendering of
`f64` values. -/
def primDebugText (reprF : F → String) : Primitive F → String
  | .signed n => rustDebugI64 n
  | .unsigned n => rustDebugU64 n
  | .float x => reprF x
  | .bool b => rustDebugBool b
  | .char c => rustDebugChar c
  | .str s => rustDebugStr s
  | .none => "None"

/-- The debug text `sval::fmt::debug` produces for a streamed structured
value (external crate; no claim depends on its exact shape, only on its
determinism, so the tokens are rendered by their debug text in
sequence). -/
def svalDebugText (reprF : F → String) (toks : List (SvalToken F)) : String :=
  String.join (toks.map fun t =>
    match t with
    | .u64 n => rustDebugU64 n
    | .i64 n => rustDebugI64 n
    | .f64 x => reprF x
    | .char c => rustDebugChar c
    | .bool b => rustDebugBool b
    | .str s => rustDebugStr s)

/-- `FmtVisitor::debug`: `v.fmt(self.0)?` — append the object's debug
text to the formatter, or fail when the object's `fmt` fails. -/
def fmtDebug (d : Option String) (s : String) : String × Except String Unit :=
  match d with
  | some t => (s ++ t, .ok ())
  | Option.none => (s, .error "fmt failed")

/-- Rust `FmtVisitor`: the text-formatting consumer. The state is the
text accumulated in the formatter. Every primitive method forwards its
value through `{:?}` formatting to `debug`
(`self.debug(&format_args!("{:?}", v))`); `none` writes the literal
token `None`; `sval` formats through `sval::fmt::debug`. -/
def fmtVisitor (reprF : F → String) : Visitor String F where
  debug := fmtDebug
  u64 := fun n s => fmtDebug (some (rustDebugU64 n)) s
  i64 := fun n s => fmtDebug (some (rustDebugI64 n)) s
  f64 := fun x s => fmtDebug (some (reprF x)) s
  bool := fun b s => fmtDebug (some (rustDebugBool b)) s
  char := fun c s => fmtDebug (some (rustDebugChar c)) s
  str := fun t s => fmtDebug (some (rustDebugStr t)) s
  none := fun s => fmtDebug (some "None") s
  sval := fun toks s => fmtDebug (some (svalDebugText reprF toks)) s

/-- Rust `impl fmt::Debug for kv::Value`: `self.visit(&mut
FmtVisitor(f))?; Ok(())`, starting from an empty formatter. -/
def fmtValueDebug (reprF : F → String) (c : Inner F) :
    String × Except String Unit :=
  Inner.visit (fmtVisitor reprF) c ""

/-- Rust `impl fmt::Display for kv::Value`: the body is identical to the
`fmt::Debug` impl: `self.visit(&mut FmtVisitor(f))?; Ok(())`. -/
def fmtValueDisplay (reprF : F → String) (c : Inner F) :
    String × Except String Unit :=
  Inner.visit (fmtVisitor reprF) c ""

/-- A counting test visitor: every method increments the count and
succeeds, so the count after a dispatch is the number of visitor-method
invocations it performed. -/
def countingVisitor : Visitor Nat F where
  debug := fun _ n => (n + 1, .ok ())
  u64 := fun _ n => (n + 1, .ok ())
  i64 := fun _ n => (n + 1, .ok ())
  f64 := fun _ n => (n + 1, .ok ())
  bool := fun _ n => (n + 1, .ok ())
  char := fun _ n => (n + 1, .ok ())
  str := fun _ n => (n + 1, .ok ())
  none := fun n => (n + 1, .ok ())
  sval := fun _ n => (n + 1, .ok ())

/-- Whether every fill on the container's dispatch path honours the fill
contract (performs its one downstream dispatch rather than failing). -/
def Inner.fillsOk : Inner F → Bool
  | .fill inner => inner.fillsOk
  | .fillFail _ => false
  | _ => true

/-- Whether a coerced state is the borrowed-string primitive. The
coercion engine never produces such a state: its `str` handler writes
the owned `Coerced::String` (or nothing), never `Primitive::Str`. -/
def Coerced.isPrimStr : Coerced F → Bool
  | .primitive (.str _) => true
  | _ => false

/-! Helper lemmas about the coercion dispatch. -/

/-- When every fill on the dispatch path honours the fill contract, the
coercion dispatch returns `Ok(())`: every method of the `Coerce` visitor
succeeds. -/
lemma coerce_ok_of_fillsOk (std : Bool) (c : Inner F) (s0 : Coerced F)
    (h : c.fillsOk = true) :
    (Inner.visit (coerceVisitor std) c s0).2 = .ok () := by
  induction c generalizing s0 with
  | primitive p => cases p <;> rfl
  | fill inner ih => exact ih s0 (by simpa [Inner.fillsOk] using h)
  | fillFail e => simp [Inner.fillsOk] at h
  | debug d => rfl
  | display d => rfl
  | sval toks => rfl

/-- When some fill on the dispatch path fails, no `Coerce` method ever
fires, so the coercion state is left untouched. -/
lemma coerce_state_of_not_fillsOk (std : Bool) (c : Inner F)
    (s0 : Coerced F) (h : c.fillsOk = false) :
    (Inner.visit (coerceVisitor std) c s0).1 = s0 := by
  induction c generalizing s0 with
  | primitive p => simp [Inner.fillsOk] at h
  | fill inner ih => exact ih s0 (by simpa [Inner.fillsOk] using h)
  | fillFail e => rfl
  | debug d => simp [Inner.fillsOk] at h
  | display d => simp [Inner.fillsOk] at h
  | sval toks => simp [Inner.fillsOk] at h

/-- A failing coercion dispatch can only come from a failing fill. -/
lemma not_fillsOk_of_coerce_error (std : Bool) (c : Inner F) (e : String)
    (h : (c.coerceRun std).2 = .error e) : c.fillsOk = false := by
  cases hf : c.fillsOk with
  | false => rfl
  | true =>
      have hok := coerce_ok_of_fillsOk std c (.primitive .none) hf
      rw [Inner.coerceRun] at h
      rw [hok] at h
      exact Except.noConfusion h

/-- One `sval` coercion step never produces the borrowed-string
primitive state. -/
lemma svalCoerceStep_notStr (std : Bool) (s : Coerced F) (t : SvalToken F)
    (h : s.isPrimStr = false) :
    (svalCoerceStep std s t).isPrimStr = false := by
  cases t with
  | u64 n => rfl
  | i64 n => rfl
  | f64 x => rfl
  | char c => rfl
  | bool b => rfl
  | str u => cases std with
    | true => rfl
    | false => exact h

/-- Folding `sval` coercion steps preserves the not-borrowed-string
invariant of the state. -/
lemma svalCoerce_foldl_notStr (std : Bool) (toks : List (SvalToken F))
    (s : Coerced F) (h : s.isPrimStr = false) :
    (toks.foldl (svalCoerceStep std) s).isPrimStr = false := by
  induction toks generalizing s with
  | nil => exact h
  | cons t ts ih => exact ih _ (svalCoerceStep_notStr std s t h)

/-- The coercion engine never reaches a borrowed-string primitive state:
its `str` handler writes the owned `Coerced::String` (with `std`) or
nothing (without), and the `sval` path maintains the same invariant. -/
lemma coerce_visit_notStr (std : Bool) (c : Inner F) (s0 : Coerced F)
    (h : s0.isPrimStr = false) :
    ((Inner.visit (coerceVisitor std) c s0).1).isPrimStr = false := by
  induction c generalizing s0 with
  | primitive p =>
      cases p with
      | str t => cases std with
        | true => rfl
        | false => exact h
      | signed n => rfl
      | unsigned n => rfl
      | float x => rfl
      | bool b => rfl
      | char c => rfl
      | none => rfl
  | fill inner ih => exact ih s0 h
  | fillFail e => exact h
  | debug d => exact h
  | display d => exact h
  | sval toks => exact svalCoerce_foldl_notStr std toks (.primitive .none) rfl

/-- A coerced state that is not the borrowed-string primitive projects
to no string through `into_primitive` followed by `into_str`. -/
lemma into_str_none_of_notStr (s : Coerced F) (h : s.isPrimStr = false) :
    s.into_primitive.into_str = Option.none := by
  cases s with
  | primitive p =>
      cases p with
      | str t => exact Bool.noConfusion h
      | signed n => rfl
      | unsigned n => rfl
      | float x => rfl
      | bool b => rfl
      | char c => rfl
      | none => rfl
  | string t => rfl

/-- The typed projections all yield `none` on a container whose coerced
state is the neutral `Primitive::None` in every configuration (used for
the failing-dispatch case; the shortcut equation discharges `as_str`'s
special case for the container at hand). -/
lemma projections_none_of_coerce_none (std : Bool) (c : Inner F)
    (hstate : ∀ std', Inner.coerce std' c = Coerced.primitive .none)
    (hshort : Inner.as_str std c =
      ((Inner.coerce std c).into_primitive).into_str) :
    Inner.as_u64 std c = Option.none ∧
    Inner.as_i64 std c = Option.none ∧
    Inner.as_f64 std c = Option.none ∧
    Inner.as_bool std c = Option.none ∧
    Inner.as_char std c = Option.none ∧
    Inner.as_str std c = Option.none ∧
    Inner.to_str c = Option.none := by
  refine ⟨?_, ?_, ?_, ?_, ?_, ?_, ?_⟩
  · show ((Inner.coerce std c).into_primitive).into_u64 = _
    rw [hstate]; rfl
  · show ((Inner.coerce std c).into_primitive).into_i64 = _
    rw [hstate]; rfl
  · show ((Inner.coerce std c).into_primitive).into_f64 = _
    rw [hstate]; rfl
  · show ((Inner.coerce std c).into_primitive).into_bool = _
    rw [hstate]; rfl
  · show ((Inner.coerce std c).into_primitive).into_char = _
    rw [hstate]; rfl
  · rw [hshort, hstate]; rfl
  · show (Inner.coerce true c).into_string = _
    rw [hstate]; rfl

/-! The claims. -/

/-- Claim C1: building a `Container` as the `Primitive` variant from a
value of any primitive kind and calling the matching typed projection
returns `Some` of that value unchanged, in both build configurations.
(The absence kind has no typed projection of its own; the six
projections cover every kind that has one.) -/
theorem claim_C1 (F : Type) (std : Bool) (n : Int) (u : Nat) (x : F)
    (b : Bool) (ch : Char) (s : String) :
    Inner.as_i64 std (.primitive (.signed n) : Inner F) = some n ∧
    Inner.as_u64 std (.primitive (.unsigned u) : Inner F) = some u ∧
    Inner.as_f64 std (.primitive (.float x)) = some x ∧
    Inner.as_bool std (.primitive (.bool b) : Inner F) = some b ∧
    Inner.as_char std (.primitive (.char ch) : Inner F) = some ch ∧
    Inner.as_str std (.primitive (.str s) : Inner F) = some s :=
  ⟨rfl, rfl, rfl, rfl, rfl, rfl⟩

/-- Claim C2 counterexample: on the container holding the plain string
primitive `"a"`, the shortcut path of `as_str` returns `some "a"`, while
the general coercion path over the same container — whose dispatched
value is a string slice — returns `none` (the coerced owned-string state
projects to `Primitive::None`): the two paths do not yield identical
results. -/
theorem claim_C2_counterexample :
    Inner.as_str true (.primitive (.str "a") : Inner Unit) = some "a" ∧
    ((Inner.coerce true (.primitive (.str "a") : Inner Unit)).into_primitive).into_str
      = Option.none ∧
    some "a" ≠ (Option.none : Option String) :=
  ⟨rfl, rfl, fun h => Option.noConfusion h⟩

/-- Claim C2 (amended): the general coercion path never produces a
string: for every container, in both configurations, running the
coercion visitor and projecting through
`into_primitive`/`into_str` yields `none` — in particular on containers
whose dispatched value is a string slice — whereas `as_str`'s
special-cased shortcut yields the string on a plain string-primitive
container. The shortcut therefore differs from the general path exactly
on string-dispatching containers and is what makes `as_str` return
`Some` at all. -/
theorem claim_C2_amended (F : Type) (std : Bool) (c : Inner F)
    (s : String) :
    ((Inner.coerce std c).into_primitive).into_str = Option.none ∧
    Inner.as_str std (.primitive (.str s) : Inner F) = some s :=
  ⟨into_str_none_of_notStr _ (coerce_visit_notStr std c _ rfl), rfl⟩

/-- Claim C3: each typed projection on a primitive container returns
`Some` exactly when the primitive is its own variant, and `none` on
every mismatched kind — in particular there is no numeric conversion
between `Signed`, `Unsigned` and `Float`. -/
theorem claim_C3 (F : Type) (std : Bool) (p : Primitive F) :
    (Inner.as_u64 std (.primitive p) =
      match p with | .unsigned v => some v | _ => Option.none) ∧
    (Inner.as_i64 std (.primitive p) =
      match p with | .signed v => some v | _ => Option.none) ∧
    (Inner.as_f64 std (.primitive p) =
      match p with | .float v => some v | _ => Option.none) ∧
    (Inner.as_bool std (.primitive p) =
      match p with | .bool v => some v | _ => Option.none) ∧
    (Inner.as_char std (.primitive p) =
      match p with | .char v => some v | _ => Option.none) ∧
    (Inner.as_str std (.primitive p) =
      match p with | .str v => some v | _ => Option.none) := by
  cases p <;> cases std <;> exact ⟨rfl, rfl, rfl, rfl, rfl, rfl⟩

/-- Claim C4: on a debug-formattable or display-formattable container,
every typed projection returns `none`: the coercion visitor's `debug`
handler discards the value and leaves the state unchanged (first
conjunct), the display case reduces to `debug` via the trait's default
method, and the state therefore stays at the initial neutral
`Primitive::None`. -/
theorem claim_C4 (F : Type) (std : Bool) (d e : Option String)
    (s : Coerced F) :
    (Visitor.debug (coerceVisitor std) d s = (s, .ok ())) ∧
    (Inner.as_u64 std (.debug d : Inner F) = Option.none) ∧
    (Inner.as_i64 std (.debug d : Inner F) = Option.none) ∧
    (Inner.as_f64 std (.debug d : Inner F) = (Option.none : Option F)) ∧
    (Inner.as_bool std (.debug d : Inner F) = Option.none) ∧
    (Inner.as_char std (.debug d : Inner F) = Option.none) ∧
    (Inner.as_str std (.debug d : Inner F) = Option.none) ∧
    (Inner.to_str (.debug d : Inner F) = Option.none) ∧
    (Inner.as_u64 std (.display e : Inner F) = Option.none) ∧
    (Inner.as_i64 std (.display e : Inner F) = Option.none) ∧
    (Inner.as_f64 std (.display e : Inner F) = (Option.none : Option F)) ∧
    (Inner.as_bool std (.display e : Inner F) = Option.none) ∧
    (Inner.as_char std (.display e : Inner F) = Option.none) ∧
    (Inner.as_str std (.display e : Inner F) = Option.none) ∧
    (Inner.to_str (.display e : Inner F) = Option.none) :=
  ⟨rfl, rfl, rfl, rfl, rfl, rfl, rfl, rfl, rfl, rfl, rfl, rfl, rfl, rfl,
    rfl⟩

/-- Claim C5: one dispatch of any container calls exactly one visitor
method exactly once — counted by a visitor whose every method increments
its state — provided every fill on the dispatch path honours the fill
contract and performs its single downstream dispatch (which is how the
`Fill` variant achieves the count transitively). -/
theorem claim_C5 (F : Type) (c : Inner F) (n : Nat)
    (h : c.fillsOk = true) :
    Inner.visit countingVisitor c n = (n + 1, .ok ()) := by
  induction c generalizing n with
  | primitive p => cases p <;> rfl
  | fill inner ih => exact ih n (by simpa [Inner.fillsOk] using h)
  | fillFail e => simp [Inner.fillsOk] at h
  | debug d => rfl
  | display d => rfl
  | sval toks => rfl

/-- Witness for claim C5 on a concrete fill container. -/
theorem claim_C5_witness :
    Inner.fillsOk (.fill (.primitive (.unsigned 42)) : Inner Unit)
        = true ∧
    Inner.visit countingVisitor
        (.fill (.primitive (.unsigned 42)) : Inner Unit) 0
      = (1, .ok ()) :=
  ⟨rfl, claim_C5 Unit (.fill (.primitive (.unsigned 42))) 0 rfl⟩

/-- Claim C6: the debug-style and display-style textual renderings of a
captured value are the same function of the container: both `fmt` impls
dispatch into the same formatting visitor from an empty formatter. -/
theorem claim_C6 (F : Type) (reprF : F → String) (c : Inner F) :
    fmtValueDebug reprF c = fmtValueDisplay reprF c := rfl

/-- Claim C7: both renderings of a primitive container write exactly the
primitive's own canonical debug text and succeed: each formatting method
forwards the value through `{:?}`, strings are quoted as debug text
rather than raw, and the absence primitive renders as the literal token
`None`. -/
theorem claim_C7 (F : Type) (reprF : F → String) (p : Primitive F) :
    fmtValueDebug reprF (.primitive p) = (primDebugText reprF p, .ok ()) ∧
    fmtValueDisplay reprF (.primitive p)
      = (primDebugText reprF p, .ok ()) := by
  cases p <;> exact ⟨rfl, rfl⟩

/-- Claim C8: the typed projections are total `Option`-valued functions
(by type) and any error produced during the coercion dispatch is
discarded: when the dispatch result — which `Inner::coerce` ignores — is
an error, every projection still returns, and returns `none`, never an
error. -/
theorem claim_C8 (F : Type) (std : Bool) (c : Inner F) (e : String)
    (h : (c.coerceRun std).2 = .error e) :
    Inner.as_u64 std c = Option.none ∧
    Inner.as_i64 std c = Option.none ∧
    Inner.as_f64 std c = Option.none ∧
    Inner.as_bool std c = Option.none ∧
    Inner.as_char std c = Option.none ∧
    Inner.as_str std c = Option.none ∧
    Inner.to_str c = Option.none := by
  have hf : c.fillsOk = false := not_fillsOk_of_coerce_error std c e h
  have hstate : ∀ std', Inner.coerce std' c = Coerced.primitive .none :=
    fun std' => coerce_state_of_not_fillsOk std' c (.primitive .none) hf
  cases c with
  | primitive p => exact absurd hf (by simp [Inner.fillsOk])
  | debug d => exact absurd hf (by simp [Inner.fillsOk])
  | display d => exact absurd hf (by simp [Inner.fillsOk])
  | sval toks => exact absurd hf (by simp [Inner.fillsOk])
  | fill inner => exact projections_none_of_coerce_none std _ hstate rfl
  | fillFail e' => exact projections_none_of_coerce_none std _ hstate rfl

/-- Witness for claim C8 on a concrete failing fill. -/
theorem claim_C8_witness :
    ((Inner.fillFail "fill failed" : Inner Unit).coerceRun true).2
        = .error "fill failed" ∧
    Inner.as_u64 true (Inner.fillFail "fill failed" : Inner Unit)
        = Option.none :=
  ⟨rfl,
    (claim_C8 Unit true (Inner.fillFail "fill failed") "fill failed"
        rfl).1⟩

/-- Claim C9: without heap allocation the coercion visitor's string
handler is a no-op leaving the state at its previous value (first
conjunct), so `as_str` in that configuration returns `none` for every
container that is not a plain string primitive (second conjunct, stated
as a complete characterisation); `to_str` exists only in the `std`
configuration (its model fixes `std := true`), and there, building a
container from a structured string value and calling `to_str` returns
exactly that string's content (third conjunct). -/
theorem claim_C9 (F : Type) (t : String) (σ0 : Coerced F) (c : Inner F)
    (s : String) :
    (Visitor.str (coerceVisitor false) t σ0 = (σ0, .ok ())) ∧
    (Inner.as_str false c =
      match c with
      | .primitive (.str u) => some u
      | _ => Option.none) ∧
    (Inner.to_str (.sval [SvalToken.str s] : Inner F) = some s) := by
  refine ⟨rfl, ?_, rfl⟩
  cases c with
  | primitive p => cases p <;> rfl
  | fill inner =>
      show ((Inner.coerce false (.fill inner)).into_primitive).into_str
          = Option.none
      exact into_str_none_of_notStr _
        (coerce_visit_notStr false (.fill inner) (.primitive .none) rfl)
  | fillFail e =>
      show ((Inner.coerce false (.fillFail e : Inner F)).into_primitive).into_str
          = Option.none
      exact into_str_none_of_notStr _
        (coerce_visit_notStr false (.fillFail e) (.primitive .none) rfl)
  | debug d =>
      show ((Inner.coerce false (.debug d : Inner F)).into_primitive).into_str
          = Option.none
      exact into_str_none_of_notStr _
        (coerce_visit_notStr false (.debug d) (.primitive .none) rfl)
  | display d =>
      show ((Inner.coerce false (.display d : Inner F)).into_primitive).into_str
          = Option.none
      exact into_str_none_of_notStr _
        (coerce_visit_notStr false (.display d) (.primitive .none) rfl)
  | sval toks =>
      show ((Inner.coerce false (.sval toks)).into_primitive).into_str
          = Option.none
      exact into_str_none_of_notStr _
        (coerce_visit_notStr false (.sval toks) (.primitive .none) rfl)

/-- Claim C10: in every build configuration, `as_str` returns `Some`
only through the direct `Primitive::Str` shortcut: for any other
container — including ones whose dispatch delivers a string through the
visitor, such as a fill-produced string or a structured string — it
returns `none`, because the coercion state holding a string is the owned
`Coerced::String` variant (or is never written), which `into_primitive`
maps to `Primitive::None`. -/
theorem claim_C10 (F : Type) (std : Bool) (c : Inner F) :
    Inner.as_str std c =
      match c with
      | .primitive (.str t) => some t
      | _ => Option.none := by
  cases c with
  | primitive p => cases p <;> rfl
  | fill inner =>
      show ((Inner.coerce std (.fill inner)).into_primitive).into_str
          = Option.none
      exact into_str_none_of_notStr _
        (coerce_visit_notStr std (.fill inner) (.primitive .none) rfl)
  | fillFail e =>
      show ((Inner.coerce std (.fillFail e : Inner F)).into_primitive).into_str
          = Option.none
      exact into_str_none_of_notStr _
        (coerce_visit_notStr std (.fillFail e) (.primitive .none) rfl)
  | debug d =>
      show ((Inner.coerce std (.debug d : Inner F)).into_primitive).into_str
          = Option.none
      exact into_str_none_of_notStr _
        (coerce_visit_notStr std (.debug d) (.primitive .none) rfl)
  | display d =>
      show ((Inner.coerce std (.display d : Inner F)).into_primitive).into_str
          = Option.none
      exact into_str_none_of_notStr _
        (coerce_visit_notStr std (.display d) (.primitive .none) rfl)
  | sval toks =>
      show ((Inner.coerce std (.sval toks)).into_primitive).into_str
          = Option.none
      exact into_str_none_of_notStr _
        (coerce_visit_notStr std (.sval toks) (.primitive .none) rfl)

end LogKV
